import Mathlib

/-!
# Pose-matching game: similarity scoring and level progression

A shallow embedding of `src/script.js` (class `PoseMatchingGame`).

Modelling conventions.

* A JavaScript number is a `JSNum`: `NaN`, an infinity, or a finite value. The
  finite values are rationals (every finite double is one) and arithmetic on
  them is exact: the rounding and the overflow of doubles are not modelled.
  The sign of zero is not modelled either: the divisors in the code are the
  frame diagonal and a positive count.
* `Math.sqrt` on finite non-negative numbers is passed to the scoring code as
  the parameter `sqrt`. A theorem that relies on a property of it (non-negative
  results, exactness at the perfect square `640² + 480²`) states that property
  as a hypothesis. `Rat.sqrt` is one function with these properties.
* `Date.now()` is the parameter `now`, in milliseconds.
* The object fields of the class are the fields of `GameState`. Every DOM
  element the code writes to is represented by the value written: a percentage
  text such as `'37%'` by the number `37`, a style width such as `'37.5%'` by
  the number `37.5`, a `disabled` attribute or a `hidden` class by a `Bool`.
* `setInterval` returns a fresh handle and adds an interval to the list of
  scheduled intervals; `clearInterval` removes the interval with the given
  handle. `addEventListener` adds one more listener to the video element.
* An `async` method is split at its suspension point: the part that runs
  synchronously when the method is called, and the continuation that runs when
  the awaited result arrives (the result is an argument).
-/

namespace PoseMatchingGame

/-! ## JavaScript numbers -/

/-- A JavaScript number: `NaN`, an infinity or a finite value. -/
inductive JSNum where
  | nan
  | negInf
  | posInf
  | num (q : ℚ)
deriving DecidableEq

namespace JSNum

/-- Unary minus. -/
def neg : JSNum → JSNum
  | nan => nan
  | negInf => posInf
  | posInf => negInf
  | num a => num (-a)

/-- The operator `+`. -/
def add : JSNum → JSNum → JSNum
  | num a, num b => num (a + b)
  | nan, _ => nan
  | _, nan => nan
  | posInf, negInf => nan
  | negInf, posInf => nan
  | posInf, _ => posInf
  | negInf, _ => negInf
  | num _, posInf => posInf
  | num _, negInf => negInf

/-- The operator `-`. -/
def sub (a b : JSNum) : JSNum :=
  add a (neg b)

/-- The operator `*`. -/
def mul : JSNum → JSNum → JSNum
  | num a, num b => num (a * b)
  | nan, _ => nan
  | _, nan => nan
  | posInf, posInf => posInf
  | negInf, negInf => posInf
  | posInf, negInf => negInf
  | negInf, posInf => negInf
  | posInf, num b => if b = 0 then nan else if 0 < b then posInf else negInf
  | negInf, num b => if b = 0 then nan else if 0 < b then negInf else posInf
  | num a, posInf => if a = 0 then nan else if 0 < a then posInf else negInf
  | num a, negInf => if a = 0 then nan else if 0 < a then negInf else posInf

/-- The operator `/`. -/
def div : JSNum → JSNum → JSNum
  | num a, num b =>
    if b = 0 then (if a = 0 then nan else if 0 < a then posInf else negInf)
    else num (a / b)
  | nan, _ => nan
  | _, nan => nan
  | num _, posInf => num 0
  | num _, negInf => num 0
  | posInf, num b => if 0 ≤ b then posInf else negInf
  | negInf, num b => if 0 ≤ b then negInf else posInf
  | posInf, posInf => nan
  | posInf, negInf => nan
  | negInf, posInf => nan
  | negInf, negInf => nan

instance : Add JSNum := ⟨add⟩
instance : Sub JSNum := ⟨sub⟩
instance : Mul JSNum := ⟨mul⟩
instance : Div JSNum := ⟨div⟩

/-- The operator `>`. -/
def gt : JSNum → JSNum → Bool
  | num a, num b => decide (b < a)
  | nan, _ => false
  | _, nan => false
  | posInf, posInf => false
  | posInf, _ => true
  | negInf, _ => false
  | num _, posInf => false
  | num _, negInf => true

/-- The operator `>=`. -/
def ge : JSNum → JSNum → Bool
  | num a, num b => decide (b ≤ a)
  | nan, _ => false
  | _, nan => false
  | posInf, _ => true
  | negInf, negInf => true
  | negInf, _ => false
  | num _, posInf => false
  | num _, negInf => true

/-- The library function `Math.max` on two arguments. -/
def mathMax : JSNum → JSNum → JSNum
  | num a, num b => num (max a b)
  | nan, _ => nan
  | _, nan => nan
  | posInf, _ => posInf
  | _, posInf => posInf
  | negInf, b => b
  | num a, negInf => num a

/-- The library function `Math.min` on two arguments. -/
def mathMin : JSNum → JSNum → JSNum
  | num a, num b => num (min a b)
  | nan, _ => nan
  | _, nan => nan
  | negInf, _ => negInf
  | _, negInf => negInf
  | posInf, b => b
  | num a, posInf => num a

/-- The expression `Math.pow(v, 2)`. -/
def mathPow2 : JSNum → JSNum
  | nan => nan
  | negInf => posInf
  | posInf => posInf
  | num a => num (a ^ 2)

/-- The library function `Math.sqrt`, given its values on the finite
non-negative numbers. -/
def mathSqrt (sqrt : ℚ → ℚ) : JSNum → JSNum
  | nan => nan
  | negInf => nan
  | posInf => posInf
  | num a => if a < 0 then nan else num (sqrt a)

/-- The library function `Math.round`: the nearest integer, a tie going up. -/
def mathRound : JSNum → JSNum
  | nan => nan
  | negInf => negInf
  | posInf => posInf
  | num a => num ((⌊a + 1 / 2⌋ : Int) : ℚ)

/-- Whether the number is neither `NaN` nor an infinity. -/
def isFinite : JSNum → Bool
  | num _ => true
  | _ => false

/-- The sum of a list of numbers. -/
def sumList (l : List JSNum) : JSNum :=
  l.foldr (· + ·) (num 0)

end JSNum

open JSNum (num mathMax mathMin mathPow2 mathSqrt mathRound)

/-! ## Data model -/

/-- One element of `pose.keypoints`. -/
structure Keypoint where
  name : String
  x : JSNum
  y : JSNum
  score : JSNum
deriving DecidableEq

/-- One detection result, an object with a `keypoints` array. -/
structure Pose where
  keypoints : List Keypoint
deriving DecidableEq

/-- One assignment `img.src = this.poses[this.currentLevelIndex]` made by
`loadTargetPose`: the level index read and the path found there (`none` for
`undefined`). -/
structure LoadRequest where
  levelIndex : Nat
  src : Option String
deriving DecidableEq

/-- Which callback an interval runs: the display timer of `startTimer` or the
detection tick of `startPoseDetection`. -/
inductive IntervalKind where
  | timer
  | detection
deriving DecidableEq

/-- One interval scheduled by `setInterval`. -/
structure Interval where
  handle : Nat
  kind : IntervalKind
deriving DecidableEq

/-- The fields of a `PoseMatchingGame` object together with the content of the
DOM elements it writes to and the intervals and listeners it has installed. -/
structure GameState where
  /-- Field `this.currentLevelIndex`. -/
  currentLevelIndex : Nat
  /-- Field `this.poses`, the target image paths, one per level. -/
  poses : List String
  /-- Field `this.targetPoseKeypoints` (`none` for `null`). -/
  targetPoseKeypoints : Option Pose
  /-- Field `this.isGameRunning`. -/
  isGameRunning : Bool
  /-- Field `this.startTime` (`none` for `null`). -/
  startTime : Option Int
  /-- Field `this.timerInterval` (`none` for `null`). -/
  timerInterval : Option Nat
  /-- Field `this.detectionInterval` (`none` for `null`). -/
  detectionInterval : Option Nat
  /-- The intervals that are scheduled, oldest first. -/
  intervals : List Interval
  /-- The handle the next `setInterval` call returns. -/
  nextHandle : Nat
  /-- The number of `loadeddata` listeners added to `this.video`. -/
  loadedDataListeners : Nat
  /-- Value written to `this.progressFill.style.width`, in percent. -/
  progressFillWidth : JSNum
  /-- Value of `this.progressText.textContent`, without the percent sign. -/
  progressText : JSNum
  /-- Value of `this.currentLevel.textContent`. -/
  currentLevelText : Nat
  /-- Value of `this.timer.textContent`. -/
  timerText : String
  /-- Value of `this.totalTime.textContent`. -/
  totalTimeText : String
  /-- Value of `this.targetPose.src`. -/
  targetPoseSrc : Option String
  /-- Whether `this.gameComplete` carries the class `hidden`. -/
  gameCompleteHidden : Bool
  /-- Value of `this.startBtn.disabled`. -/
  startBtnDisabled : Bool
  /-- Value of `this.resetBtn.disabled`. -/
  resetBtnDisabled : Bool
  /-- Whether the webcam stream of `this.video.srcObject` has live tracks. -/
  streamLive : Bool
  /-- The pose last drawn on the canvas (`none` after `clearRect` alone). -/
  canvas : Option Pose
  /-- The image loads started by `loadTargetPose`, oldest first. -/
  loadRequests : List LoadRequest

/-! ## Similarity scoring (`calculatePoseSimilarity`, lines 195-229) -/

/-- The array `keyPointsToCompare`. -/
def keyPointsToCompare : List String :=
  ["nose", "left_shoulder", "right_shoulder", "left_elbow", "right_elbow",
   "left_wrist", "right_wrist", "left_hip", "right_hip", "left_knee",
   "right_knee", "left_ankle", "right_ankle"]

/-- The expression `pose.keypoints.find(kp => kp.name === keypointName)`. -/
def findKeypoint (pose : Pose) (keypointName : String) : Option Keypoint :=
  pose.keypoints.find? (fun kp => kp.name == keypointName)

/-- The constant `maxDistance`:
`Math.sqrt(Math.pow(640, 2) + Math.pow(480, 2))`. -/
def maxDistance (sqrt : ℚ → ℚ) : JSNum :=
  mathSqrt sqrt (mathPow2 (num 640) + mathPow2 (num 480))

/-- The constant `distance` of the loop body: the distance of the raw `x`, `y`
of the two keypoints (the comment above it in the source speaks of normalised
coordinates; the code normalises nothing). -/
def distance (sqrt : ℚ → ℚ) (currentKP targetKP : Keypoint) : JSNum :=
  mathSqrt sqrt
    (mathPow2 (currentKP.x - targetKP.x) + mathPow2 (currentKP.y - targetKP.y))

/-- The constant `similarity` of the loop body. -/
def pointSimilarity (sqrt : ℚ → ℚ) (currentKP targetKP : Keypoint) : JSNum :=
  mathMax (num 0) (num 100 - distance sqrt currentKP targetKP / maxDistance sqrt * num 100)

/-- One iteration of the `forEach` callback on the pair
`(totalSimilarity, validKeypoints)`. -/
def compareStep (sqrt : ℚ → ℚ) (currentPose targetPose : Pose)
    (acc : JSNum × Nat) (keypointName : String) : JSNum × Nat :=
  match findKeypoint currentPose keypointName, findKeypoint targetPose keypointName with
  | some currentKP, some targetKP =>
    if currentKP.score.gt (num (3 / 10)) && targetKP.score.gt (num (3 / 10)) then
      (acc.1 + pointSimilarity sqrt currentKP targetKP, acc.2 + 1)
    else acc
  | _, _ => acc

/-- The method `calculatePoseSimilarity(currentPose, targetPose)`; `none` is a
`null` or `undefined` argument. -/
def calculatePoseSimilarity (sqrt : ℚ → ℚ) (currentPose targetPose : Option Pose) : JSNum :=
  match currentPose, targetPose with
  | some c, some t =>
    let acc := keyPointsToCompare.foldl (compareStep sqrt c t) (num 0, 0)
    if acc.2 > 0 then acc.1 / num (acc.2 : ℚ) else num 0
  | _, _ => num 0

/-! ## Progress display (`updateProgress`, lines 231-235) -/

/-- The constant `clampedSimilarity`. -/
def clampedSimilarity (similarity : JSNum) : JSNum :=
  mathMin (num 100) (mathMax (num 0) similarity)

/-- The method `updateProgress(similarity)`. -/
def updateProgress (similarity : JSNum) (s : GameState) : GameState :=
  { s with
    progressFillWidth := clampedSimilarity similarity
    progressText := mathRound (clampedSimilarity similarity) }

/-! ## Intervals and listeners -/

/-- The call `setInterval(callback, period)` for a callback of the given kind,
with the handle stored in `this.timerInterval` or `this.detectionInterval`. -/
def setInterval (kind : IntervalKind) (s : GameState) : GameState :=
  match kind with
  | .timer =>
    { s with
      intervals := s.intervals ++ [{ handle := s.nextHandle, kind := .timer }]
      nextHandle := s.nextHandle + 1
      timerInterval := some s.nextHandle }
  | .detection =>
    { s with
      intervals := s.intervals ++ [{ handle := s.nextHandle, kind := .detection }]
      nextHandle := s.nextHandle + 1
      detectionInterval := some s.nextHandle }

/-- The call `clearInterval(handle)`; `clearInterval(null)` does nothing. -/
def clearInterval (handle : Option Nat) (intervals : List Interval) : List Interval :=
  match handle with
  | none => intervals
  | some h => intervals.filter (fun i => i.handle != h)

/-! ## Level and game state machine -/

/-- The expression `n.toString().padStart(2, '0')`. -/
def padStart2 (n : Int) : String :=
  let str := toString n
  if str.length < 2 then "".pushn '0' (2 - str.length) ++ str else str

/-- The text built in `completeGame` and in the timer callback from an elapsed
time in milliseconds: minutes and seconds, two digits each. -/
def formatElapsed (elapsed : Int) : String :=
  let minutes := Int.fdiv elapsed 60000
  let seconds := Int.fdiv (Int.tmod elapsed 60000) 1000
  padStart2 minutes ++ ":" ++ padStart2 seconds

/-- The method `startGame()` (lines 56-82) once `getUserMedia` has settled:
with a stream, it becomes the video source and one more `loadeddata` listener
is added; without one, the error is reported and nothing changes. -/
def startGame (granted : Bool) (s : GameState) : GameState :=
  if granted then
    { s with
      streamLive := true
      loadedDataListeners := s.loadedDataListeners + 1 }
  else s

/-- The body of one `loadeddata` listener (lines 70-75), `startTimer` (lines
84-93) and `startPoseDetection` (lines 95-101) included. -/
def startGameLoaded (now : Int) (s : GameState) : GameState :=
  let s1 := { s with isGameRunning := true, startTime := some now }
  let s2 := setInterval .timer s1
  let s3 := setInterval .detection s2
  { s3 with
    startBtnDisabled := true
    resetBtnDisabled := false }

/-- The event `loadeddata` on the video element: every listener added so far
runs, in the order of addition. -/
def videoLoadedData (now : Int) (s : GameState) : GameState :=
  Nat.iterate (startGameLoaded now) s.loadedDataListeners s

/-- The callback of a timer interval (lines 85-92); a start time that is `null`
or `0` is falsy. -/
def timerTick (now : Int) (s : GameState) : GameState :=
  match s.startTime with
  | some t => if t = 0 then s else { s with timerText := formatElapsed (now - t) }
  | none => s

/-- The method `drawPose(pose)` (lines 128-169): it touches the canvas only. -/
def drawPose (pose : Pose) (s : GameState) : GameState :=
  { s with canvas := some pose }

/-- The synchronous part of `loadTargetPose` (lines 171-189): a new image is
created and its `src` is set to `this.poses[this.currentLevelIndex]`. -/
def loadTargetPose (s : GameState) : GameState :=
  { s with
    loadRequests := s.loadRequests ++
      [{ levelIndex := s.currentLevelIndex, src := s.poses[s.currentLevelIndex]? }] }

/-- The `img.onload` continuation of `loadTargetPose` (lines 178-187), given
the poses the detector found in the target image. -/
def loadTargetPoseLoaded (poses : List Pose) (s : GameState) : GameState :=
  match poses with
  | pose :: _ => { s with targetPoseKeypoints := some pose }
  | [] => s

/-- The method `completeGame()` (lines 253-266). -/
def completeGame (now : Int) (s : GameState) : GameState :=
  let totalElapsed := now - s.startTime.getD 0
  { s with
    isGameRunning := false
    intervals := clearInterval s.detectionInterval (clearInterval s.timerInterval s.intervals)
    totalTimeText := formatElapsed totalElapsed
    gameCompleteHidden := false
    startBtnDisabled := true
    resetBtnDisabled := true }

/-- The method `nextLevel()` (lines 237-251) up to its suspension point. -/
def nextLevel (now : Int) (s : GameState) : GameState :=
  let s1 := { s with currentLevelIndex := s.currentLevelIndex + 1 }
  if s1.currentLevelIndex ≥ s1.poses.length then
    completeGame now s1
  else
    loadTargetPose
      { s1 with
        currentLevelText := s1.currentLevelIndex + 1
        targetPoseSrc := s1.poses[s1.currentLevelIndex]?
        progressFillWidth := num 0
        progressText := num 0 }

/-- The method `resetGame()` (lines 268-296). -/
def resetGame (s : GameState) : GameState :=
  loadTargetPose
    { s with
      isGameRunning := false
      currentLevelIndex := 0
      startTime := none
      intervals := clearInterval s.detectionInterval (clearInterval s.timerInterval s.intervals)
      currentLevelText := 1
      timerText := "00:00"
      targetPoseSrc := s.poses[0]?
      progressFillWidth := num 0
      progressText := num 0
      gameCompleteHidden := true
      startBtnDisabled := false
      resetBtnDisabled := true
      streamLive := false
      canvas := none }

/-- The method `detectPose()` (lines 103-126) after the detector call:
`detected` is the array the call returned, or the error it threw. -/
def detectPose (sqrt : ℚ → ℚ) (now : Int) (detected : Except String (List Pose))
    (s : GameState) : GameState :=
  match detected with
  | .error _ => s
  | .ok [] => s
  | .ok (currentPose :: _) =>
    let s1 := drawPose currentPose s
    match s1.targetPoseKeypoints with
    | none => s1
    | some target =>
      let similarity := calculatePoseSimilarity sqrt (some currentPose) (some target)
      let s2 := updateProgress similarity s1
      if similarity.ge (num 80) then nextLevel now s2 else s2

/-- The callback of a detection interval (lines 96-100) after the detector
call. -/
def detectionTick (sqrt : ℚ → ℚ) (now : Int) (detected : Except String (List Pose))
    (s : GameState) : GameState :=
  if s.isGameRunning then detectPose sqrt now detected s else s

/-! ## The scoring rule as the specification words it -/

/-- The comparison set of the specification: nose, shoulders, elbows, wrists,
hips, knees and ankles, eyes and ears left out. -/
def comparisonLandmarks : List String :=
  ["nose",
   "left_shoulder", "right_shoulder",
   "left_elbow", "right_elbow",
   "left_wrist", "right_wrist",
   "left_hip", "right_hip",
   "left_knee", "right_knee",
   "left_ankle", "right_ankle"]

/-- The keypoint of a skeleton with a given name: the first one, should the
skeleton break the rule of one keypoint per name. -/
def lookupLandmark (skeleton : Pose) (landmark : String) : Option Keypoint :=
  (skeleton.keypoints.filter (fun kp => decide (kp.name = landmark))).head?

/-- The confidence gate on one comparison landmark: the pair of keypoints with
that name when both skeletons have one and both scores exceed `0.3`. -/
def validPair (current target : Pose) (landmark : String) : Option (Keypoint × Keypoint) :=
  match lookupLandmark current landmark, lookupLandmark target landmark with
  | some a, some b =>
    if a.score.gt (num (3 / 10)) = true ∧ b.score.gt (num (3 / 10)) = true then some (a, b)
    else none
  | _, _ => none

/-- The keypoint pairs of the comparison landmarks that pass the gate. -/
def validPairs (current target : Pose) : List (Keypoint × Keypoint) :=
  comparisonLandmarks.filterMap (validPair current target)

/-- The Euclidean distance of the positions of two keypoints. -/
def euclideanDistance (sqrt : ℚ → ℚ) (p : Keypoint × Keypoint) : JSNum :=
  mathSqrt sqrt ((p.1.x - p.2.x) * (p.1.x - p.2.x) + (p.1.y - p.2.y) * (p.1.y - p.2.y))

/-- The per-point similarity of the specification,
`max(0, 100 - (d / 800) * 100)` with `d` the distance of the two positions. -/
def specPointSimilarity (sqrt : ℚ → ℚ) (p : Keypoint × Keypoint) : JSNum :=
  mathMax (num 0) (num 100 - (euclideanDistance sqrt p / num 800) * num 100)

/-- The score of the specification: the arithmetic mean of the per-point
similarities of the valid landmarks, and `0` when there is none or a skeleton
is absent. -/
def specScore (sqrt : ℚ → ℚ) (current target : Option Pose) : JSNum :=
  match current, target with
  | some c, some t =>
    if validPairs c t = [] then num 0
    else JSNum.sumList ((validPairs c t).map (specPointSimilarity sqrt)) /
      num ((validPairs c t).length : ℚ)
  | _, _ => num 0

/-- A number that lies between two bounds; `NaN` and the infinities do not. -/
def JSNum.between (lo hi : ℚ) : JSNum → Prop
  | num a => lo ≤ a ∧ a ≤ hi
  | _ => False

/-- A number that is an integer between two bounds. -/
def JSNum.integerBetween (lo hi : Int) : JSNum → Prop
  | num a => ∃ n : Int, a = n ∧ lo ≤ n ∧ n ≤ hi
  | _ => False

/-- A number that is `NaN`, positive infinity or a non-negative finite number. -/
def JSNum.nonnegOrNaN : JSNum → Prop
  | .nan => True
  | .posInf => True
  | num a => 0 ≤ a
  | .negInf => False

/-- A number that is `NaN` or lies between two bounds. -/
def JSNum.betweenOrNaN (lo hi : ℚ) : JSNum → Prop
  | .nan => True
  | num a => lo ≤ a ∧ a ≤ hi
  | _ => False

/-- Whether the coordinates of both keypoints of a pair are finite. -/
def finitePair (p : Keypoint × Keypoint) : Bool :=
  p.1.x.isFinite && p.1.y.isFinite && p.2.x.isFinite && p.2.y.isFinite

/-! ## Concrete inputs -/

/-- A keypoint with finite coordinates and score. -/
def keypointAt (name : String) (x y score : ℚ) : Keypoint :=
  { name := name, x := num x, y := num y, score := num score }

/-- A skeleton with a single, fully confident `nose` keypoint at `(x, y)`. -/
def nosePose (x y : ℚ) : Pose :=
  { keypoints := [keypointAt "nose" x y 1] }

/-- A skeleton whose `nose` keypoint has the x coordinate `NaN`. -/
def nanPose : Pose :=
  { keypoints := [{ name := "nose", x := .nan, y := num 0, score := num 1 }] }

/-- A live skeleton: `nose`, `left_shoulder` and `right_ankle` are confident,
`left_hip` has a score of exactly `0.3` and `left_eye` is not a comparison
landmark. -/
def gatedCurrent : Pose :=
  { keypoints :=
      [keypointAt "nose" 160 0 1,
       keypointAt "left_eye" 700 0 1,
       keypointAt "left_shoulder" 100 100 (9 / 10),
       keypointAt "left_hip" 10 10 (3 / 10),
       keypointAt "right_ankle" 300 400 (1 / 2)] }

/-- A target skeleton for `gatedCurrent`, its keypoints in another order. -/
def gatedTarget : Pose :=
  { keypoints :=
      [keypointAt "right_ankle" 0 0 1,
       keypointAt "left_hip" 10 10 1,
       keypointAt "left_eye" 0 0 1,
       keypointAt "left_shoulder" 100 100 1,
       keypointAt "nose" 0 0 1] }

/-- A skeleton that names `nose` twice, against the detector contract. -/
def duplicatedPose : Pose :=
  { keypoints := [keypointAt "nose" 900 0 1, keypointAt "nose" 0 0 1] }

/-- The state the constructor builds (lines 18-24); the DOM content comes from
the page, not from the script, and is taken to be what `resetGame` writes. -/
def newGame : GameState :=
  { currentLevelIndex := 0
    poses := ["image/1.jpg", "image/2.jpg", "image/3.jpg", "image/4.jpg"]
    targetPoseKeypoints := none
    isGameRunning := false
    startTime := none
    timerInterval := none
    detectionInterval := none
    intervals := []
    nextHandle := 1
    loadedDataListeners := 0
    progressFillWidth := num 0
    progressText := num 0
    currentLevelText := 1
    timerText := "00:00"
    totalTimeText := "00:00"
    targetPoseSrc := some "image/1.jpg"
    gameCompleteHidden := true
    startBtnDisabled := false
    resetBtnDisabled := true
    streamLive := false
    canvas := none
    loadRequests := [] }

/-- The game after the page has loaded the image of level 0, in which the
detector found `detected`, the player has pressed start and the video has
delivered data at time `1000`. -/
def firstRun (detected : List Pose) : GameState :=
  videoLoadedData 1000
    (startGame true (loadTargetPoseLoaded detected (loadTargetPose newGame)))

/-- The first run of the game when it has reached level index `level`. -/
def runningAt (level : Nat) (detected : List Pose) : GameState :=
  { firstRun detected with
    currentLevelIndex := level
    currentLevelText := level + 1 }

/-- The game after the first run was reset, the player has pressed start again
and the video has delivered data at time `2000`. -/
def secondRun (detected : List Pose) : GameState :=
  videoLoadedData 2000 (startGame true (resetGame (firstRun detected)))

/-- The game after level 0 was matched against the target `nosePose 0 0` and
the image of level 1 was loaded with no pose detected in it. -/
def staleTargetState : GameState :=
  loadTargetPoseLoaded [] (nextLevel 5000 (runningAt 0 [nosePose 0 0]))

/-- A detection tick at time `3000` in which the detector finds the skeleton
`nosePose 0 0`. -/
def matchingTick (s : GameState) : GameState :=
  detectionTick Rat.sqrt 3000 (.ok [nosePose 0 0]) s

/-- The second run of the game, with `nosePose 0 0` as the target found in the
image of level 0, after three matching ticks: the last level is reached. -/
def secondRunLastLevel : GameState :=
  matchingTick (matchingTick (matchingTick (secondRun [nosePose 0 0])))

/-! # Theorems -/

/-! ## Arithmetic of JavaScript numbers -/

namespace JSNum

theorem add_eq (a b : JSNum) : a + b = add a b := rfl

theorem sub_eq (a b : JSNum) : a - b = add a (neg b) := rfl

theorem mul_eq (a b : JSNum) : a * b = mul a b := rfl

theorem div_eq (a b : JSNum) : a / b = div a b := rfl

theorem num_add_num (a b : ℚ) : num a + num b = num (a + b) := rfl

theorem num_sub_num (a b : ℚ) : num a - num b = num (a - b) := by
  simp [sub_eq, neg, add, sub_eq_add_neg]

theorem num_mul_num (a b : ℚ) : num a * num b = num (a * b) := rfl

theorem num_div_num (a b : ℚ) (hb : b ≠ 0) : num a / num b = num (a / b) := by
  simp [div_eq, div, hb]

theorem mathPow2_num (a : ℚ) : mathPow2 (num a) = num (a ^ 2) := rfl

theorem mathSqrt_num (sqrt : ℚ → ℚ) (a : ℚ) (ha : 0 ≤ a) :
    mathSqrt sqrt (num a) = num (sqrt a) := by
  simp [mathSqrt, not_lt.mpr ha]

theorem mathMax_num (a b : ℚ) : mathMax (num a) (num b) = num (max a b) := rfl

theorem mathMin_num (a b : ℚ) : mathMin (num a) (num b) = num (min a b) := rfl

theorem add_assoc_js (a b c : JSNum) : a + b + c = a + (b + c) := by
  cases a <;> cases b <;> cases c <;> simp [add_eq, add, add_assoc]

theorem zero_add_js (a : JSNum) : num 0 + a = a := by
  cases a <;> simp [add_eq, add]

theorem mathPow2_eq_mul (a : JSNum) : mathPow2 a = a * a := by
  cases a <;> simp [mul_eq, mul, mathPow2, pow_two]

theorem mathPow2_sub_comm (a b : JSNum) : mathPow2 (a - b) = mathPow2 (b - a) := by
  cases a <;> cases b <;> simp [sub_eq, add, neg, mathPow2]
  ring

theorem mathPow2_nonnegOrNaN (a : JSNum) : (mathPow2 a).nonnegOrNaN := by
  cases a <;> simp [mathPow2, nonnegOrNaN]
  positivity

theorem add_nonnegOrNaN {a b : JSNum} (ha : a.nonnegOrNaN) (hb : b.nonnegOrNaN) :
    (a + b).nonnegOrNaN := by
  cases a <;> cases b <;> simp_all [add_eq, add, nonnegOrNaN]
  positivity

theorem mathSqrt_nonnegOrNaN (sqrt : ℚ → ℚ) (hnn : ∀ v, 0 ≤ sqrt v) (a : JSNum) :
    (mathSqrt sqrt a).nonnegOrNaN := by
  cases a with
  | num q =>
    simp only [mathSqrt]
    split_ifs
    · trivial
    · exact hnn q
  | _ => simp [mathSqrt, nonnegOrNaN]

theorem div_num_nonnegOrNaN {a : JSNum} (ha : a.nonnegOrNaN) {c : ℚ} (hc : 0 < c) :
    (a / num c).nonnegOrNaN := by
  cases a <;> simp_all [div_eq, div, nonnegOrNaN, hc.ne', hc.le]
  positivity

theorem mul_num_nonnegOrNaN {a : JSNum} (ha : a.nonnegOrNaN) {c : ℚ} (hc : 0 < c) :
    (a * num c).nonnegOrNaN := by
  cases a <;> simp_all [mul_eq, mul, nonnegOrNaN, hc.ne', hc.le]

theorem clamp_of_nonnegOrNaN {a : JSNum} (ha : a.nonnegOrNaN) :
    (mathMax (num 0) (num 100 - a)).betweenOrNaN 0 100 := by
  cases a <;> simp_all [sub_eq, add, neg, mathMax, nonnegOrNaN, betweenOrNaN]

theorem sumList_cons (a : JSNum) (l : List JSNum) : sumList (a :: l) = a + sumList l := rfl

theorem sumList_betweenOrNaN (l : List JSNum) (h : ∀ v ∈ l, v.betweenOrNaN 0 100) :
    (sumList l).betweenOrNaN 0 (100 * (l.length : ℚ)) := by
  induction l with
  | nil => simp [sumList, betweenOrNaN]
  | cons a rest ih =>
    have ha := h a (List.mem_cons_self _ _)
    have hr := ih (fun v hv => h v (List.mem_cons_of_mem _ hv))
    rw [sumList_cons]
    cases a with
    | nan => cases sumList rest <;> simp [add_eq, add, betweenOrNaN]
    | negInf => exact absurd ha (by simp [betweenOrNaN])
    | posInf => exact absurd ha (by simp [betweenOrNaN])
    | num q =>
      cases hs : sumList rest with
      | nan => simp [add_eq, add, betweenOrNaN]
      | negInf => rw [hs] at hr; exact absurd hr (by simp [betweenOrNaN])
      | posInf => rw [hs] at hr; exact absurd hr (by simp [betweenOrNaN])
      | num r =>
        rw [hs] at hr
        simp only [betweenOrNaN] at ha hr
        simp only [add_eq, add, betweenOrNaN, List.length_cons, Nat.cast_add, Nat.cast_one]
        constructor <;> linarith [ha.1, ha.2, hr.1, hr.2]

theorem mean_betweenOrNaN {a : JSNum} {n : Nat} (hn : 0 < n)
    (ha : a.betweenOrNaN 0 (100 * (n : ℚ))) : (a / num (n : ℚ)).betweenOrNaN 0 100 := by
  have hq : (0 : ℚ) < n := by exact_mod_cast hn
  cases a with
  | nan => simp [div_eq, div, betweenOrNaN]
  | negInf => exact absurd ha (by simp [betweenOrNaN])
  | posInf => exact absurd ha (by simp [betweenOrNaN])
  | num q =>
    simp only [betweenOrNaN] at ha
    simp only [div_eq, div, hq.ne', if_false, betweenOrNaN]
    constructor
    · exact div_nonneg ha.1 hq.le
    · rw [div_le_iff₀ hq]; exact ha.2

theorem sumList_between (l : List JSNum) (h : ∀ v ∈ l, v.between 0 100) :
    (sumList l).between 0 (100 * (l.length : ℚ)) := by
  induction l with
  | nil => simp [sumList, between]
  | cons a rest ih =>
    have ha := h a (List.mem_cons_self _ _)
    have hr := ih (fun v hv => h v (List.mem_cons_of_mem _ hv))
    rw [sumList_cons]
    cases a with
    | num q =>
      cases hs : sumList rest with
      | num r =>
        rw [hs] at hr
        simp only [between] at ha hr
        simp only [add_eq, add, between, List.length_cons, Nat.cast_add, Nat.cast_one]
        constructor <;> linarith [ha.1, ha.2, hr.1, hr.2]
      | _ => rw [hs] at hr; exact absurd hr (by simp [between])
    | _ => exact absurd ha (by simp [between])

theorem mean_between {a : JSNum} {n : Nat} (hn : 0 < n)
    (ha : a.between 0 (100 * (n : ℚ))) : (a / num (n : ℚ)).between 0 100 := by
  have hq : (0 : ℚ) < n := by exact_mod_cast hn
  cases a with
  | num q =>
    simp only [between] at ha
    simp only [div_eq, div, hq.ne', if_false, between]
    constructor
    · exact div_nonneg ha.1 hq.le
    · rw [div_le_iff₀ hq]; exact ha.2
  | _ => exact absurd ha (by simp [between])

end JSNum

/-! ## Lemmas on the scoring loop -/

theorem findKeypoint_eq_lookupLandmark (pose : Pose) (n : String) :
    findKeypoint pose n = lookupLandmark pose n := by
  unfold findKeypoint lookupLandmark
  induction pose.keypoints with
  | nil => rfl
  | cons a rest ih =>
    by_cases h : a.name = n
    · simp [List.find?_cons, List.filter_cons, h]
    · simp [List.find?_cons, List.filter_cons, h, ih]

theorem lookupLandmark_mem {pose : Pose} {n : String} {k : Keypoint}
    (h : lookupLandmark pose n = some k) : k ∈ pose.keypoints ∧ k.name = n := by
  unfold lookupLandmark at h
  have hm := List.mem_of_mem_head? h
  rw [List.mem_filter] at hm
  exact ⟨hm.1, by simpa using hm.2⟩

theorem lookupLandmark_eq_some_iff (pose : Pose) (n : String) (k : Keypoint)
    (hnodup : (pose.keypoints.map Keypoint.name).Nodup) :
    lookupLandmark pose n = some k ↔ k ∈ pose.keypoints ∧ k.name = n := by
  rw [← findKeypoint_eq_lookupLandmark]
  unfold findKeypoint
  cases pose with
  | mk kps =>
  simp only at hnodup ⊢
  induction kps with
  | nil => simp
  | cons a rest ih =>
    rw [List.map_cons, List.nodup_cons] at hnodup
    by_cases ha : a.name = n
    · rw [List.find?_cons_of_pos _ (by simpa using ha)]
      constructor
      · intro h
        cases h
        exact ⟨List.mem_cons_self _ _, ha⟩
      · rintro ⟨hmem, hk⟩
        rcases List.mem_cons.mp hmem with rfl | hmem
        · rfl
        · exact absurd (List.mem_map.mpr ⟨k, hmem, hk.trans ha.symm⟩) hnodup.1
    · rw [List.find?_cons_of_neg _ (by simpa using ha), ih hnodup.2]
      constructor
      · rintro ⟨hmem, hk⟩
        exact ⟨List.mem_cons_of_mem _ hmem, hk⟩
      · rintro ⟨hmem, hk⟩
        rcases List.mem_cons.mp hmem with rfl | hmem
        · exact absurd hk ha
        · exact ⟨hmem, hk⟩

theorem keyPointsToCompare_eq : keyPointsToCompare = comparisonLandmarks := rfl

theorem compareStep_eq (sqrt : ℚ → ℚ) (c t : Pose) (acc : JSNum × Nat) (n : String) :
    compareStep sqrt c t acc n =
      match validPair c t n with
      | some p => (acc.1 + pointSimilarity sqrt p.1 p.2, acc.2 + 1)
      | none => acc := by
  unfold compareStep validPair
  rw [findKeypoint_eq_lookupLandmark, findKeypoint_eq_lookupLandmark]
  cases lookupLandmark c n with
  | none => rfl
  | some a =>
    cases lookupLandmark t n with
    | none => rfl
    | some b =>
      cases ha : a.score.gt (num (3 / 10)) <;> cases hb : b.score.gt (num (3 / 10)) <;>
        simp [ha, hb]

theorem foldl_compareStep (sqrt : ℚ → ℚ) (c t : Pose) (names : List String)
    (acc : JSNum × Nat) :
    names.foldl (compareStep sqrt c t) acc =
      (acc.1 + JSNum.sumList ((names.filterMap (validPair c t)).map
          (fun p => pointSimilarity sqrt p.1 p.2)),
       acc.2 + (names.filterMap (validPair c t)).length) := by
  induction names generalizing acc with
  | nil =>
    cases acc with
    | mk total valid =>
      cases total <;> simp [JSNum.sumList, JSNum.add_eq, JSNum.add]
  | cons n rest ih =>
    rw [List.foldl_cons, ih, compareStep_eq]
    cases h : validPair c t n with
    | none => simp [List.filterMap_cons, h]
    | some p =>
      simp [List.filterMap_cons, h, JSNum.sumList_cons, JSNum.add_assoc_js, Nat.add_assoc,
        Nat.add_comm 1]

theorem calculatePoseSimilarity_some (sqrt : ℚ → ℚ) (c t : Pose) :
    calculatePoseSimilarity sqrt (some c) (some t) =
      if validPairs c t = [] then num 0
      else JSNum.sumList ((validPairs c t).map (fun p => pointSimilarity sqrt p.1 p.2)) /
        num ((validPairs c t).length : ℚ) := by
  simp only [calculatePoseSimilarity, foldl_compareStep, validPairs, keyPointsToCompare_eq,
    JSNum.zero_add_js]
  cases h : comparisonLandmarks.filterMap (validPair c t) with
  | nil => simp
  | cons p ps => simp

theorem maxDistance_eq (sqrt : ℚ → ℚ) (hdiag : sqrt (640 ^ 2 + 480 ^ 2) = 800) :
    maxDistance sqrt = num 800 := by
  simp only [maxDistance, JSNum.mathPow2, JSNum.add_eq, JSNum.add, JSNum.mathSqrt]
  rw [if_neg (by norm_num), hdiag]

theorem pointSimilarity_eq_spec (sqrt : ℚ → ℚ) (hdiag : sqrt (640 ^ 2 + 480 ^ 2) = 800)
    (p : Keypoint × Keypoint) :
    pointSimilarity sqrt p.1 p.2 = specPointSimilarity sqrt p := by
  simp only [pointSimilarity, specPointSimilarity, euclideanDistance, distance,
    maxDistance_eq sqrt hdiag, JSNum.mathPow2_eq_mul]

theorem pointSimilarity_betweenOrNaN (sqrt : ℚ → ℚ) (hnn : ∀ v, 0 ≤ sqrt v)
    (hdiag : sqrt (640 ^ 2 + 480 ^ 2) = 800) (a b : Keypoint) :
    (pointSimilarity sqrt a b).betweenOrNaN 0 100 := by
  unfold pointSimilarity
  rw [maxDistance_eq sqrt hdiag]
  apply JSNum.clamp_of_nonnegOrNaN
  apply JSNum.mul_num_nonnegOrNaN _ (by norm_num)
  apply JSNum.div_num_nonnegOrNaN _ (by norm_num)
  apply JSNum.mathSqrt_nonnegOrNaN sqrt hnn

theorem pointSimilarity_comm (sqrt : ℚ → ℚ) (a b : Keypoint) :
    pointSimilarity sqrt a b = pointSimilarity sqrt b a := by
  unfold pointSimilarity distance
  rw [JSNum.mathPow2_sub_comm a.x b.x, JSNum.mathPow2_sub_comm a.y b.y]

theorem compareStep_comm (sqrt : ℚ → ℚ) (c t : Pose) :
    compareStep sqrt c t = compareStep sqrt t c := by
  funext acc n
  unfold compareStep
  cases findKeypoint c n with
  | none => cases findKeypoint t n <;> rfl
  | some a =>
    cases findKeypoint t n with
    | none => rfl
    | some b =>
      simp only [pointSimilarity_comm sqrt a b, Bool.and_comm]

/-! ## Evaluation at concrete inputs -/

theorem ratSqrt_diag : Rat.sqrt (640 ^ 2 + 480 ^ 2) = 800 := by
  have h : (640 ^ 2 + 480 ^ 2 : ℚ) = 800 * 800 := by norm_num
  rw [h, Rat.sqrt_eq]; norm_num

theorem ratSqrt_sq (q : ℚ) (hq : 0 ≤ q) : Rat.sqrt (q ^ 2) = q := by
  rw [pow_two, Rat.sqrt_eq, abs_of_nonneg hq]

theorem pointSimilarity_num (sqrt : ℚ → ℚ) (hdiag : sqrt (640 ^ 2 + 480 ^ 2) = 800)
    (n m : String) (x y u v : ℚ) (sc tc : JSNum) :
    pointSimilarity sqrt { name := n, x := num x, y := num y, score := sc }
        { name := m, x := num u, y := num v, score := tc } =
      num (max 0 (100 - sqrt ((x - u) ^ 2 + (y - v) ^ 2) / 800 * 100)) := by
  have hsq : 0 ≤ (x - u) ^ 2 + (y - v) ^ 2 := add_nonneg (sq_nonneg _) (sq_nonneg _)
  simp only [pointSimilarity, distance, maxDistance_eq sqrt hdiag]
  rw [JSNum.num_sub_num, JSNum.num_sub_num, JSNum.mathPow2_num, JSNum.mathPow2_num,
    JSNum.num_add_num, JSNum.mathSqrt_num sqrt _ hsq, JSNum.num_div_num _ _ (by norm_num),
    JSNum.num_mul_num, JSNum.num_sub_num, JSNum.mathMax_num]

theorem pointSimilarity_keypointAt (sqrt : ℚ → ℚ) (hdiag : sqrt (640 ^ 2 + 480 ^ 2) = 800)
    (n m : String) (x y u v sc tc : ℚ) :
    pointSimilarity sqrt (keypointAt n x y sc) (keypointAt m u v tc) =
      num (max 0 (100 - sqrt ((x - u) ^ 2 + (y - v) ^ 2) / 800 * 100)) :=
  pointSimilarity_num sqrt hdiag n m x y u v (num sc) (num tc)

theorem pointSimilarity_between (sqrt : ℚ → ℚ) (hnn : ∀ v, 0 ≤ sqrt v)
    (hdiag : sqrt (640 ^ 2 + 480 ^ 2) = 800) (p : Keypoint × Keypoint)
    (hfin : finitePair p = true) : (pointSimilarity sqrt p.1 p.2).between 0 100 := by
  obtain ⟨⟨n, ax, ay, sc⟩, ⟨m, bx, bY, tc⟩⟩ := p
  simp only [finitePair, Bool.and_eq_true] at hfin
  obtain ⟨⟨⟨h1, h2⟩, h3⟩, h4⟩ := hfin
  cases ax <;> simp only [JSNum.isFinite] at h1 <;> try exact absurd h1 (by decide)
  cases ay <;> simp only [JSNum.isFinite] at h2 <;> try exact absurd h2 (by decide)
  cases bx <;> simp only [JSNum.isFinite] at h3 <;> try exact absurd h3 (by decide)
  cases bY <;> simp only [JSNum.isFinite] at h4 <;> try exact absurd h4 (by decide)
  rename_i x y u v
  rw [pointSimilarity_num sqrt hdiag]
  simp only [JSNum.between]
  constructor
  · exact le_max_left _ _
  · apply max_le (by norm_num)
    have h : 0 ≤ sqrt ((x - u) ^ 2 + (y - v) ^ 2) / 800 * 100 :=
      mul_nonneg (div_nonneg (hnn _) (by norm_num)) (by norm_num)
    linarith [h]

theorem similarity_nosePose (sqrt : ℚ → ℚ) (hdiag : sqrt (640 ^ 2 + 480 ^ 2) = 800)
    (x y u v : ℚ) :
    calculatePoseSimilarity sqrt (some (nosePose x y)) (some (nosePose u v)) =
      num (max 0 (100 - sqrt ((x - u) ^ 2 + (y - v) ^ 2) / 800 * 100)) := by
  have hv : validPairs (nosePose x y) (nosePose u v) =
      [(keypointAt "nose" x y 1, keypointAt "nose" u v 1)] := by
    simp [validPairs, comparisonLandmarks, List.filterMap_cons, validPair, lookupLandmark,
      nosePose, keypointAt, JSNum.gt]
    norm_num
  rw [calculatePoseSimilarity_some, hv]
  simp only [List.map_cons, List.map_nil, JSNum.sumList, List.foldr_cons, List.foldr_nil,
    pointSimilarity_keypointAt sqrt hdiag, JSNum.add_eq, JSNum.add, JSNum.div_eq, JSNum.div,
    List.length_cons, List.length_nil]
  norm_num

theorem similarity_nosePose_horizontal (x u : ℚ) (h : 0 ≤ x - u) (h800 : x - u ≤ 800) :
    calculatePoseSimilarity Rat.sqrt (some (nosePose x 0)) (some (nosePose u 0)) =
      num (100 - (x - u) / 8) := by
  rw [similarity_nosePose Rat.sqrt ratSqrt_diag]
  have e : (x - u) ^ 2 + ((0 : ℚ) - 0) ^ 2 = (x - u) ^ 2 := by ring
  rw [e, ratSqrt_sq _ h, max_eq_right (by linarith)]
  congr 1
  ring

/-! ## Lemmas on the tick and the progress display -/

theorem nextLevel_currentLevelIndex (now : Int) (s : GameState) :
    (nextLevel now s).currentLevelIndex = s.currentLevelIndex + 1 := by
  simp only [nextLevel]
  split_ifs <;> rfl

theorem detectPose_scored (sqrt : ℚ → ℚ) (now : Int) (p : Pose) (others : List Pose)
    (t : Pose) (s : GameState) (h : s.targetPoseKeypoints = some t) :
    detectPose sqrt now (.ok (p :: others)) s =
      if (calculatePoseSimilarity sqrt (some p) (some t)).ge (num 80) = true then
        nextLevel now (updateProgress (calculatePoseSimilarity sqrt (some p) (some t))
          (drawPose p s))
      else
        updateProgress (calculatePoseSimilarity sqrt (some p) (some t)) (drawPose p s) := by
  simp [detectPose, drawPose, h]

theorem clampedSimilarity_num (q : ℚ) :
    clampedSimilarity (num q) = num (min 100 (max 0 q)) := rfl

theorem clampedSimilarity_cases (r : JSNum) (hr : r ≠ .nan) :
    ∃ c : ℚ, clampedSimilarity r = num c ∧ 0 ≤ c ∧ c ≤ 100 := by
  cases r with
  | nan => exact absurd rfl hr
  | negInf => exact ⟨0, rfl, le_refl _, by norm_num⟩
  | posInf => exact ⟨100, rfl, by norm_num, le_refl _⟩
  | num q =>
    exact ⟨min 100 (max 0 q), rfl, le_min (by norm_num) (le_max_left _ _), min_le_left _ _⟩

theorem mathRound_num_bounds (c : ℚ) (h0 : 0 ≤ c) (h100 : c ≤ 100) :
    0 ≤ ⌊c + 1 / 2⌋ ∧ ⌊c + 1 / 2⌋ ≤ 100 ∧ |((⌊c + 1 / 2⌋ : Int) : ℚ) - c| ≤ 1 / 2 := by
  refine ⟨?_, ?_, ?_⟩
  · apply Int.floor_nonneg.mpr; linarith
  · have h4 : ⌊c + 1 / 2⌋ < 100 + 1 := by
      apply Int.floor_lt.mpr; push_cast; linarith
    omega
  · have h1 := Int.floor_le (c + 1 / 2)
    have h2 := Int.lt_floor_add_one (c + 1 / 2)
    rw [abs_le]
    constructor <;> linarith

/-! ## Lemmas on the gate -/

theorem validPair_swap (c t : Pose) (n : String) :
    validPair t c n = (validPair c t n).map Prod.swap := by
  unfold validPair
  cases lookupLandmark c n with
  | none => cases lookupLandmark t n <;> rfl
  | some a =>
    cases lookupLandmark t n with
    | none => rfl
    | some b =>
      by_cases h : a.score.gt (num (3 / 10)) = true ∧ b.score.gt (num (3 / 10)) = true
      · simp [h, h.1, h.2]
      · have h2 : ¬ (b.score.gt (num (3 / 10)) = true ∧ a.score.gt (num (3 / 10)) = true) :=
          fun h3 => h ⟨h3.2, h3.1⟩
        simp [h, h2]

theorem validPairs_swap (c t : Pose) :
    validPairs t c = (validPairs c t).map Prod.swap := by
  unfold validPairs
  induction comparisonLandmarks with
  | nil => rfl
  | cons n rest ih =>
    rw [List.filterMap_cons, List.filterMap_cons, validPair_swap c t n]
    cases validPair c t n with
    | none => simpa using ih
    | some p => simpa using ih

theorem validPairs_gatedCurrent :
    validPairs gatedCurrent gatedTarget =
      [(keypointAt "nose" 160 0 1, keypointAt "nose" 0 0 1),
       (keypointAt "left_shoulder" 100 100 (9 / 10), keypointAt "left_shoulder" 100 100 1),
       (keypointAt "right_ankle" 300 400 (1 / 2), keypointAt "right_ankle" 0 0 1)] := by
  simp [validPairs, comparisonLandmarks, List.filterMap_cons, validPair, lookupLandmark,
    gatedCurrent, gatedTarget, keypointAt, JSNum.gt, List.filter_cons]
  norm_num

theorem validPairs_nanPose :
    validPairs nanPose (nosePose 0 0) =
      [({ name := "nose", x := .nan, y := num 0, score := num 1 }, keypointAt "nose" 0 0 1)] := by
  simp [validPairs, comparisonLandmarks, List.filterMap_cons, validPair, lookupLandmark,
    nanPose, nosePose, keypointAt, JSNum.gt, List.filter_cons]
  norm_num

/-! ## Claims on the similarity score -/

/-- C1: with `Math.sqrt` exact at the frame diagonal (`sqrt(640² + 480²) = 800`),
`calculatePoseSimilarity` returns the arithmetic mean of
`max(0, 100 - (d / 800) * 100)`, `d` the Euclidean distance of the two
positions, over those of the 13 comparison landmarks (nose, shoulders, elbows,
wrists, hips, knees, ankles: the list the code loops over) whose keypoint is
found in both skeletons with both scores strictly above `0.3`, and it returns
`0` when a skeleton is absent or no landmark passes that gate. -/
theorem calculatePoseSimilarity_eq_mean (sqrt : ℚ → ℚ)
    (hdiag : sqrt (640 ^ 2 + 480 ^ 2) = 800) (current target : Option Pose) :
    calculatePoseSimilarity sqrt current target = specScore sqrt current target ∧
      keyPointsToCompare = comparisonLandmarks ∧
      comparisonLandmarks.length = 13 ∧
      (current = none ∨ target = none → calculatePoseSimilarity sqrt current target = num 0) ∧
      (∀ c t, current = some c → target = some t → validPairs c t = [] →
        calculatePoseSimilarity sqrt current target = num 0) := by
  refine ⟨?_, rfl, rfl, ?_, ?_⟩
  · cases current with
    | none => cases target <;> rfl
    | some c =>
      cases target with
      | none => rfl
      | some t =>
        rw [calculatePoseSimilarity_some]
        simp only [specScore]
        have h : (fun p : Keypoint × Keypoint => pointSimilarity sqrt p.1 p.2) =
            specPointSimilarity sqrt := funext (pointSimilarity_eq_spec sqrt hdiag)
        rw [h]
  · rintro (rfl | rfl)
    · cases target <;> rfl
    · cases current <;> rfl
  · rintro c t rfl rfl hnone
    rw [calculatePoseSimilarity_some, if_pos hnone]

/-- Witness of C1 with `Rat.sqrt`: between `gatedCurrent` and `gatedTarget` the
landmarks `nose`, `left_shoulder` and `right_ankle` pass the gate (the
`left_hip` score is exactly `0.3`, `left_eye` is not compared), at distances
`160`, `0` and `500`, and the mean of `80`, `100` and `37.5` is `72.5`. -/
theorem calculatePoseSimilarity_eq_mean_witness :
    Rat.sqrt (640 ^ 2 + 480 ^ 2) = 800 ∧
      calculatePoseSimilarity Rat.sqrt (some gatedCurrent) (some gatedTarget) =
        specScore Rat.sqrt (some gatedCurrent) (some gatedTarget) ∧
      calculatePoseSimilarity Rat.sqrt (some gatedCurrent) (some gatedTarget) =
        num (145 / 2) := by
  have h := calculatePoseSimilarity_eq_mean Rat.sqrt ratSqrt_diag (some gatedCurrent)
    (some gatedTarget)
  refine ⟨ratSqrt_diag, h.1, ?_⟩
  have h1 : Rat.sqrt ((160 - 0) ^ 2 + (0 - 0) ^ 2) = 160 := by
    have e : ((160 : ℚ) - 0) ^ 2 + (0 - 0) ^ 2 = 160 ^ 2 := by norm_num
    rw [e, ratSqrt_sq 160 (by norm_num)]
  have h2 : Rat.sqrt ((100 - 100) ^ 2 + (100 - 100) ^ 2) = 0 := by
    have e : ((100 : ℚ) - 100) ^ 2 + (100 - 100) ^ 2 = 0 ^ 2 := by norm_num
    rw [e, ratSqrt_sq 0 (by norm_num)]
  have h3 : Rat.sqrt ((300 - 0) ^ 2 + (400 - 0) ^ 2) = 500 := by
    have e : ((300 : ℚ) - 0) ^ 2 + (400 - 0) ^ 2 = 500 ^ 2 := by norm_num
    rw [e, ratSqrt_sq 500 (by norm_num)]
  rw [calculatePoseSimilarity_some, validPairs_gatedCurrent]
  simp only [List.map_cons, List.map_nil, JSNum.sumList, List.foldr_cons, List.foldr_nil,
    pointSimilarity_keypointAt Rat.sqrt ratSqrt_diag, h1, h2, h3, JSNum.num_add_num,
    List.length_cons, List.length_nil]
  rw [if_neg (by simp), JSNum.num_div_num _ _ (by norm_num)]
  norm_num

/-- C2 (as the code has it): with `Math.sqrt` non-negative and exact at the frame
diagonal, the score returned by `calculatePoseSimilarity` is, for all skeletons,
either `NaN` or a number between `0` and `100`; it is a number between `0` and
`100` whenever the coordinates of the keypoints that pass the gate are finite,
whatever the scores, the number of keypoints and their names. -/
theorem calculatePoseSimilarity_bounded (sqrt : ℚ → ℚ) (hnn : ∀ v, 0 ≤ sqrt v)
    (hdiag : sqrt (640 ^ 2 + 480 ^ 2) = 800) (current target : Option Pose) :
    (calculatePoseSimilarity sqrt current target).betweenOrNaN 0 100 ∧
      ((∀ c t, current = some c → target = some t →
          ∀ p ∈ validPairs c t, finitePair p = true) →
        (calculatePoseSimilarity sqrt current target).between 0 100) := by
  cases current with
  | none => cases target <;> simp [calculatePoseSimilarity, JSNum.betweenOrNaN, JSNum.between]
  | some c =>
    cases target with
    | none => simp [calculatePoseSimilarity, JSNum.betweenOrNaN, JSNum.between]
    | some t =>
      rw [calculatePoseSimilarity_some]
      by_cases hnil : validPairs c t = []
      · simp [hnil, JSNum.betweenOrNaN, JSNum.between]
      · rw [if_neg hnil]
        have hlen : 0 < (validPairs c t).length := List.length_pos.mpr hnil
        constructor
        · have hs := JSNum.sumList_betweenOrNaN
            ((validPairs c t).map (fun p => pointSimilarity sqrt p.1 p.2))
            (by
              intro v hv
              obtain ⟨p, -, rfl⟩ := List.mem_map.mp hv
              exact pointSimilarity_betweenOrNaN sqrt hnn hdiag p.1 p.2)
          rw [List.length_map] at hs
          exact JSNum.mean_betweenOrNaN hlen hs
        · intro hfin
          have hs := JSNum.sumList_between
            ((validPairs c t).map (fun p => pointSimilarity sqrt p.1 p.2))
            (by
              intro v hv
              obtain ⟨p, hp, rfl⟩ := List.mem_map.mp hv
              exact pointSimilarity_between sqrt hnn hdiag p (hfin c t rfl rfl p hp))
          rw [List.length_map] at hs
          exact JSNum.mean_between hlen hs

/-- Witness of the amended C2 with `Rat.sqrt`, on a skeleton that repeats a
name. -/
theorem calculatePoseSimilarity_bounded_witness :
    (∀ v, 0 ≤ Rat.sqrt v) ∧ Rat.sqrt (640 ^ 2 + 480 ^ 2) = 800 ∧
      (∀ p ∈ validPairs duplicatedPose (nosePose 0 0), finitePair p = true) ∧
      (calculatePoseSimilarity Rat.sqrt (some duplicatedPose)
        (some (nosePose 0 0))).between 0 100 := by
  have hv : validPairs duplicatedPose (nosePose 0 0) =
      [(keypointAt "nose" 900 0 1, keypointAt "nose" 0 0 1)] := by
    simp [validPairs, comparisonLandmarks, List.filterMap_cons, validPair, lookupLandmark,
      duplicatedPose, nosePose, keypointAt, JSNum.gt, List.filter_cons]
    norm_num
  have hfin : ∀ p ∈ validPairs duplicatedPose (nosePose 0 0), finitePair p = true := by
    intro p hp
    rw [hv, List.mem_singleton] at hp
    rw [hp]; rfl
  exact ⟨Rat.sqrt_nonneg, ratSqrt_diag, hfin,
    (calculatePoseSimilarity_bounded Rat.sqrt Rat.sqrt_nonneg ratSqrt_diag
      (some duplicatedPose) (some (nosePose 0 0))).2
      (fun c t hc ht => by cases hc; cases ht; exact hfin)⟩

/-- C2, counterexample: a `nose` keypoint with x coordinate `NaN` and score `1`
passes the gate, and the score against a `nose` at `(0, 0)` is `NaN`, which is
not a number between `0` and `100`. -/
theorem calculatePoseSimilarity_nan_unbounded :
    (∀ v, 0 ≤ Rat.sqrt v) ∧ Rat.sqrt (640 ^ 2 + 480 ^ 2) = 800 ∧
      calculatePoseSimilarity Rat.sqrt (some nanPose) (some (nosePose 0 0)) = .nan ∧
      ¬ (calculatePoseSimilarity Rat.sqrt (some nanPose) (some (nosePose 0 0))).between
        0 100 := by
  have e : calculatePoseSimilarity Rat.sqrt (some nanPose) (some (nosePose 0 0)) = .nan := by
    rw [calculatePoseSimilarity_some, validPairs_nanPose]
    simp [pointSimilarity, distance, keypointAt, JSNum.sumList, JSNum.sub_eq, JSNum.add_eq,
      JSNum.mul_eq, JSNum.div_eq, JSNum.add, JSNum.neg, JSNum.mathPow2, JSNum.mathSqrt,
      JSNum.div, JSNum.mul, JSNum.mathMax]
  refine ⟨Rat.sqrt_nonneg, ratSqrt_diag, e, ?_⟩
  rw [e]
  simp [JSNum.between]

/-- C3: `calculatePoseSimilarity` is symmetric: swapping the two skeletons gives
the same score, the landmarks passing the gate are the same (their keypoint
pairs are swapped) and each pair contributes the same per-point similarity. -/
theorem calculatePoseSimilarity_symm (sqrt : ℚ → ℚ) (a b : Option Pose) :
    calculatePoseSimilarity sqrt a b = calculatePoseSimilarity sqrt b a ∧
      (∀ c t : Pose, validPairs t c = (validPairs c t).map Prod.swap) ∧
      (∀ p q : Keypoint, pointSimilarity sqrt p q = pointSimilarity sqrt q p) := by
  refine ⟨?_, validPairs_swap, pointSimilarity_comm sqrt⟩
  cases a with
  | none => cases b <;> rfl
  | some c =>
    cases b with
    | none => rfl
    | some t => simp only [calculatePoseSimilarity, compareStep_comm sqrt c t]

/-! ## Claims on the state machine -/

/-- C4: in a tick where the detector returns at least one skeleton and a target
skeleton is set, `nextLevel` runs exactly when the computed similarity is at
least `80`: then `currentLevelIndex` grows by one; when the similarity is not at
least `80` (every number below `80`, and `NaN`) the tick ends after the progress
update with `currentLevelIndex` unchanged. -/
theorem detectPose_advances_iff (sqrt : ℚ → ℚ) (now : Int) (currentPose : Pose)
    (others : List Pose) (target : Pose) (s : GameState)
    (htarget : s.targetPoseKeypoints = some target) :
    ((calculatePoseSimilarity sqrt (some currentPose) (some target)).ge (num 80) = true →
        detectPose sqrt now (.ok (currentPose :: others)) s =
          nextLevel now (updateProgress
            (calculatePoseSimilarity sqrt (some currentPose) (some target))
            (drawPose currentPose s)) ∧
        (detectPose sqrt now (.ok (currentPose :: others)) s).currentLevelIndex =
          s.currentLevelIndex + 1) ∧
      ((calculatePoseSimilarity sqrt (some currentPose) (some target)).ge (num 80) = false →
        detectPose sqrt now (.ok (currentPose :: others)) s =
          updateProgress (calculatePoseSimilarity sqrt (some currentPose) (some target))
            (drawPose currentPose s) ∧
        (detectPose sqrt now (.ok (currentPose :: others)) s).currentLevelIndex =
          s.currentLevelIndex) ∧
      (∀ q : ℚ, calculatePoseSimilarity sqrt (some currentPose) (some target) = num q →
        ((detectPose sqrt now (.ok (currentPose :: others)) s).currentLevelIndex =
            s.currentLevelIndex + 1 ↔ 80 ≤ q) ∧
        ((detectPose sqrt now (.ok (currentPose :: others)) s).currentLevelIndex =
            s.currentLevelIndex ↔ q < 80)) := by
  have hyes : (calculatePoseSimilarity sqrt (some currentPose) (some target)).ge (num 80)
        = true →
      detectPose sqrt now (.ok (currentPose :: others)) s =
          nextLevel now (updateProgress
            (calculatePoseSimilarity sqrt (some currentPose) (some target))
            (drawPose currentPose s)) ∧
        (detectPose sqrt now (.ok (currentPose :: others)) s).currentLevelIndex =
          s.currentLevelIndex + 1 := by
    intro h
    rw [detectPose_scored sqrt now _ _ _ _ htarget, if_pos h, nextLevel_currentLevelIndex]
    exact ⟨rfl, rfl⟩
  have hno : (calculatePoseSimilarity sqrt (some currentPose) (some target)).ge (num 80)
        = false →
      detectPose sqrt now (.ok (currentPose :: others)) s =
          updateProgress (calculatePoseSimilarity sqrt (some currentPose) (some target))
            (drawPose currentPose s) ∧
        (detectPose sqrt now (.ok (currentPose :: others)) s).currentLevelIndex =
          s.currentLevelIndex := by
    intro h
    rw [detectPose_scored sqrt now _ _ _ _ htarget, if_neg (by simp [h])]
    exact ⟨rfl, rfl⟩
  refine ⟨hyes, hno, ?_⟩
  intro q hq
  rw [hq] at hyes hno
  by_cases h80 : 80 ≤ q
  · have h := (hyes (by simp [JSNum.ge, h80])).2
    constructor
    · exact ⟨fun _ => h80, fun _ => h⟩
    · constructor
      · intro h2; rw [h] at h2; omega
      · intro h2; exact absurd h80 (not_le.mpr h2)
  · have h := (hno (by simp [JSNum.ge, h80])).2
    constructor
    · constructor
      · intro h2; rw [h] at h2; omega
      · intro h2; exact absurd h2 h80
    · exact ⟨fun _ => not_le.mp h80, fun _ => h⟩

/-- Witness of C4 with `Rat.sqrt`: a tick scoring exactly `80` moves level index
`0` to `1`, a tick scoring `79.999` leaves it at `0`. -/
theorem detectPose_advances_iff_witness :
    (runningAt 0 [nosePose 0 0]).targetPoseKeypoints = some (nosePose 0 0) ∧
      calculatePoseSimilarity Rat.sqrt (some (nosePose 160 0)) (some (nosePose 0 0)) =
        num 80 ∧
      (detectPose Rat.sqrt 5000 (.ok [nosePose 160 0])
        (runningAt 0 [nosePose 0 0])).currentLevelIndex = 1 ∧
      calculatePoseSimilarity Rat.sqrt (some (nosePose (160008 / 1000) 0))
        (some (nosePose 0 0)) = num (79999 / 1000) ∧
      (detectPose Rat.sqrt 5000 (.ok [nosePose (160008 / 1000) 0])
        (runningAt 0 [nosePose 0 0])).currentLevelIndex = 0 := by
  have h80 : calculatePoseSimilarity Rat.sqrt (some (nosePose 160 0))
      (some (nosePose 0 0)) = num 80 := by
    rw [similarity_nosePose_horizontal 160 0 (by norm_num) (by norm_num)]; norm_num
  have h79 : calculatePoseSimilarity Rat.sqrt (some (nosePose (160008 / 1000) 0))
      (some (nosePose 0 0)) = num (79999 / 1000) := by
    rw [similarity_nosePose_horizontal (160008 / 1000) 0 (by norm_num) (by norm_num)]
    norm_num
  exact ⟨rfl, h80,
    ((detectPose_advances_iff Rat.sqrt 5000 (nosePose 160 0) [] (nosePose 0 0)
      (runningAt 0 [nosePose 0 0]) rfl).1 (by rw [h80]; simp [JSNum.ge])).2,
    h79,
    ((detectPose_advances_iff Rat.sqrt 5000 (nosePose (160008 / 1000) 0) [] (nosePose 0 0)
      (runningAt 0 [nosePose 0 0]) rfl).2.1 (by rw [h79]; simp [JSNum.ge]; norm_num)).2⟩

theorem matchingTick_eq (s : GameState) (hrun : s.isGameRunning = true)
    (htarget : s.targetPoseKeypoints = some (nosePose 0 0)) :
    matchingTick s =
      nextLevel 3000 (updateProgress (num 100) (drawPose (nosePose 0 0) s)) := by
  have h100 : calculatePoseSimilarity Rat.sqrt (some (nosePose 0 0))
      (some (nosePose 0 0)) = num 100 := by
    rw [similarity_nosePose_horizontal 0 0 (by norm_num) (by norm_num)]; norm_num
  unfold matchingTick detectionTick
  rw [if_pos hrun, detectPose_scored Rat.sqrt 3000 _ _ _ _ htarget, h100,
    if_pos (by norm_num [JSNum.ge])]

theorem secondRunLastLevel_eq :
    secondRunLastLevel =
      nextLevel 3000 (updateProgress (num 100) (drawPose (nosePose 0 0)
        (nextLevel 3000 (updateProgress (num 100) (drawPose (nosePose 0 0)
          (nextLevel 3000 (updateProgress (num 100) (drawPose (nosePose 0 0)
            (secondRun [nosePose 0 0]))))))))) := by
  unfold secondRunLastLevel
  rw [matchingTick_eq (secondRun [nosePose 0 0]) rfl rfl]
  rw [matchingTick_eq (nextLevel 3000 (updateProgress (num 100) (drawPose (nosePose 0 0)
    (secondRun [nosePose 0 0])))) rfl rfl]
  rw [matchingTick_eq (nextLevel 3000 (updateProgress (num 100) (drawPose (nosePose 0 0)
    (nextLevel 3000 (updateProgress (num 100) (drawPose (nosePose 0 0)
      (secondRun [nosePose 0 0]))))))) rfl rfl]

theorem clearInterval_idem (h : Option Nat) (l : List Interval) :
    clearInterval h (clearInterval h l) = clearInterval h l := by
  cases h with
  | none => rfl
  | some n => simp [clearInterval, List.filter_filter]

theorem clearInterval_comm (h k : Option Nat) (l : List Interval) :
    clearInterval h (clearInterval k l) = clearInterval k (clearInterval h l) := by
  cases h <;> cases k <;> simp [clearInterval, List.filter_filter, Bool.and_comm]

/-- C5, the code at the failing input. For every state `nextLevel` increments
`currentLevelIndex` by one; when the new index reaches the number of levels the
running flag is cleared, the two intervals whose handles are stored are
cancelled and no target load is requested; otherwise flag and intervals are
untouched, the displayed progress is reset to `0` and the target of the new
index is requested. In the second run of the game (start, reset, start) the
`loadeddata` event runs two listeners, so four intervals are scheduled and only
the last two handles are stored: advancing from the last level then leaves a
timer and a detection interval scheduled, and that timer goes on rewriting the
timer text after the total time was shown. After a single start no interval is
left. -/
theorem nextLevel_leaves_earlier_intervals :
    (∀ (now : Int) (s : GameState),
      (nextLevel now s).currentLevelIndex = s.currentLevelIndex + 1 ∧
      (s.poses.length ≤ s.currentLevelIndex + 1 →
        (nextLevel now s).isGameRunning = false ∧
        (nextLevel now s).intervals =
          clearInterval s.detectionInterval (clearInterval s.timerInterval s.intervals) ∧
        (nextLevel now s).gameCompleteHidden = false ∧
        (nextLevel now s).loadRequests = s.loadRequests) ∧
      (s.currentLevelIndex + 1 < s.poses.length →
        (nextLevel now s).isGameRunning = s.isGameRunning ∧
        (nextLevel now s).intervals = s.intervals ∧
        (nextLevel now s).progressFillWidth = num 0 ∧
        (nextLevel now s).progressText = num 0 ∧
        (nextLevel now s).loadRequests = s.loadRequests ++
          [{ levelIndex := s.currentLevelIndex + 1,
             src := s.poses[s.currentLevelIndex + 1]? }])) ∧
    (secondRunLastLevel.currentLevelIndex = 3 ∧
      secondRunLastLevel.poses.length = 4 ∧
      secondRunLastLevel.intervals.map Interval.handle = [3, 4, 5, 6] ∧
      secondRunLastLevel.timerInterval = some 5 ∧
      secondRunLastLevel.detectionInterval = some 6 ∧
      (nextLevel 9000 secondRunLastLevel).currentLevelIndex = 4 ∧
      (nextLevel 9000 secondRunLastLevel).isGameRunning = false ∧
      (nextLevel 9000 secondRunLastLevel).intervals =
        [{ handle := 3, kind := .timer }, { handle := 4, kind := .detection }] ∧
      (nextLevel 9000 secondRunLastLevel).totalTimeText = "00:07" ∧
      (timerTick 65000 (nextLevel 9000 secondRunLastLevel)).timerText = "01:03") ∧
    (nextLevel 9000 (runningAt 3 [nosePose 0 0])).intervals = [] := by
  refine ⟨fun now s => ⟨nextLevel_currentLevelIndex now s, ?_, ?_⟩, ?_, ?_⟩
  · intro h
    simp [nextLevel, completeGame, h]
  · intro h
    simp [nextLevel, loadTargetPose, not_le.mpr h]
  · rw [secondRunLastLevel_eq]
    refine ⟨rfl, rfl, rfl, rfl, ?_⟩
    refine ⟨rfl, rfl, rfl, rfl, ?_⟩
    exact ⟨by decide, by decide⟩
  · rfl

/-- C7 (as the code has it): on the transition to Completed, `completeGame`
disables both the start control and the reset control and shows the completion
indicator; this is also the state `nextLevel` leaves when the incremented index
reaches the number of levels. -/
theorem completeGame_controls (now : Int) (s : GameState) :
    (completeGame now s).startBtnDisabled = true ∧
      (completeGame now s).resetBtnDisabled = true ∧
      (completeGame now s).gameCompleteHidden = false ∧
      (s.poses.length ≤ s.currentLevelIndex + 1 →
        (nextLevel now s).startBtnDisabled = true ∧
        (nextLevel now s).resetBtnDisabled = true) := by
  refine ⟨rfl, rfl, rfl, ?_⟩
  intro h
  simp [nextLevel, completeGame, h]

/-- Witness of the amended C7: advancing from the last level of the game. -/
theorem completeGame_controls_witness :
    (runningAt 3 [nosePose 0 0]).poses.length ≤
        (runningAt 3 [nosePose 0 0]).currentLevelIndex + 1 ∧
      (nextLevel 5000 (runningAt 3 [nosePose 0 0])).startBtnDisabled = true ∧
      (nextLevel 5000 (runningAt 3 [nosePose 0 0])).resetBtnDisabled = true :=
  ⟨by decide, (completeGame_controls 5000 (runningAt 3 [nosePose 0 0])).2.2.2 (by decide)⟩

/-- C7, counterexample: advancing from the last level (index 3 of 4) completes
the game, and the controls are then not "start disabled, reset enabled": the
reset control is disabled as well. -/
theorem completeGame_reset_not_enabled :
    (nextLevel 5000 (runningAt 3 [nosePose 0 0])).isGameRunning = false ∧
      ¬ ((nextLevel 5000 (runningAt 3 [nosePose 0 0])).startBtnDisabled = true ∧
        (nextLevel 5000 (runningAt 3 [nosePose 0 0])).resetBtnDisabled = false) := by
  refine ⟨rfl, ?_⟩
  intro h
  have h2 : (nextLevel 5000 (runningAt 3 [nosePose 0 0])).resetBtnDisabled = true := rfl
  rw [h2] at h
  exact absurd h.2 (by decide)

/-- C8: from every state `resetGame` yields level index `0`, a stopped game, no
start time, displayed progress `0`, a hidden completion indicator, an enabled
start control and a target request for level `0`, and it cancels the two
intervals whose handles are stored; applying it again leaves all these fields
as they are and requests the level-0 target once more. -/
theorem resetGame_spec (s : GameState) :
    ((resetGame s).currentLevelIndex = 0 ∧
      (resetGame s).isGameRunning = false ∧
      (resetGame s).startTime = none ∧
      (resetGame s).intervals =
        clearInterval s.detectionInterval (clearInterval s.timerInterval s.intervals) ∧
      (resetGame s).progressFillWidth = num 0 ∧
      (resetGame s).progressText = num 0 ∧
      (resetGame s).gameCompleteHidden = true ∧
      (resetGame s).startBtnDisabled = false ∧
      (resetGame s).loadRequests = s.loadRequests ++
        [{ levelIndex := 0, src := s.poses[0]? }]) ∧
    ((resetGame (resetGame s)).currentLevelIndex = (resetGame s).currentLevelIndex ∧
      (resetGame (resetGame s)).isGameRunning = (resetGame s).isGameRunning ∧
      (resetGame (resetGame s)).startTime = (resetGame s).startTime ∧
      (resetGame (resetGame s)).intervals = (resetGame s).intervals ∧
      (resetGame (resetGame s)).progressFillWidth = (resetGame s).progressFillWidth ∧
      (resetGame (resetGame s)).progressText = (resetGame s).progressText ∧
      (resetGame (resetGame s)).gameCompleteHidden = (resetGame s).gameCompleteHidden ∧
      (resetGame (resetGame s)).startBtnDisabled = (resetGame s).startBtnDisabled ∧
      (resetGame (resetGame s)).resetBtnDisabled = (resetGame s).resetBtnDisabled ∧
      (resetGame (resetGame s)).loadRequests.getLast? =
        some { levelIndex := 0, src := s.poses[0]? }) := by
  have hfields : (resetGame s).currentLevelIndex = 0 ∧
      (resetGame s).isGameRunning = false ∧
      (resetGame s).startTime = none ∧
      (resetGame s).intervals =
        clearInterval s.detectionInterval (clearInterval s.timerInterval s.intervals) ∧
      (resetGame s).progressFillWidth = num 0 ∧
      (resetGame s).progressText = num 0 ∧
      (resetGame s).gameCompleteHidden = true ∧
      (resetGame s).startBtnDisabled = false ∧
      (resetGame s).loadRequests = s.loadRequests ++
        [{ levelIndex := 0, src := s.poses[0]? }] := by
    repeat' constructor
  refine ⟨hfields, rfl, rfl, rfl, ?_, rfl, rfl, rfl, rfl, rfl, ?_⟩
  · show clearInterval s.detectionInterval (clearInterval s.timerInterval
        (clearInterval s.detectionInterval (clearInterval s.timerInterval s.intervals))) =
      clearInterval s.detectionInterval (clearInterval s.timerInterval s.intervals)
    rw [clearInterval_comm s.timerInterval s.detectionInterval
        (clearInterval s.timerInterval s.intervals),
      clearInterval_idem, clearInterval_idem]
  · simp [resetGame, loadTargetPose]

/-- C9: a tick in which the detector throws, returns an empty list, or finds a
skeleton while no target skeleton is set leaves `currentLevelIndex`,
`isGameRunning`, the displayed progress, the target, the intervals and the list
of requested loads unchanged; the tick always ends in a state (no error escapes
it). -/
theorem detectPose_skip (sqrt : ℚ → ℚ) (now : Int) (detected : Except String (List Pose))
    (s : GameState)
    (hskip : (∃ e, detected = .error e) ∨ detected = .ok [] ∨ s.targetPoseKeypoints = none) :
    (detectPose sqrt now detected s).currentLevelIndex = s.currentLevelIndex ∧
      (detectPose sqrt now detected s).isGameRunning = s.isGameRunning ∧
      (detectPose sqrt now detected s).progressFillWidth = s.progressFillWidth ∧
      (detectPose sqrt now detected s).progressText = s.progressText ∧
      (detectPose sqrt now detected s).targetPoseKeypoints = s.targetPoseKeypoints ∧
      (detectPose sqrt now detected s).startTime = s.startTime ∧
      (detectPose sqrt now detected s).intervals = s.intervals ∧
      (detectPose sqrt now detected s).loadRequests = s.loadRequests := by
  rcases detected with e | poses
  · simp [detectPose]
  · cases poses with
    | nil => simp [detectPose]
    | cons p rest =>
      rcases hskip with ⟨e, he⟩ | he | hnone
      · cases he
      · cases he
      · simp [detectPose, drawPose, hnone]

/-- Witness of C9: a tick with a skeleton and no target at level index `0`, and
a tick with an empty detector result at level index `1`. -/
theorem detectPose_skip_witness :
    (runningAt 0 []).targetPoseKeypoints = none ∧
      (detectPose Rat.sqrt 5000 (.ok [nosePose 0 0]) (runningAt 0 [])).currentLevelIndex = 0 ∧
      (detectPose Rat.sqrt 5000 (.ok [nosePose 0 0]) (runningAt 0 [])).progressText = num 0 ∧
      (detectPose Rat.sqrt 5000 (.ok []) (runningAt 1 [nosePose 0 0])).currentLevelIndex
        = 1 := by
  have h := detectPose_skip Rat.sqrt 5000 (.ok [nosePose 0 0]) (runningAt 0 [])
    (Or.inr (Or.inr rfl))
  have h2 := detectPose_skip Rat.sqrt 5000 (.ok []) (runningAt 1 [nosePose 0 0])
    (Or.inr (Or.inl rfl))
  exact ⟨rfl, h.1, h.2.2.2.1, h2.1⟩

/-- C10 (as the code has it): `updateProgress(r)` displays
`Math.round(min(100, max(0, r)))`, writes the unrounded clamped score as the
fill and leaves the level index, the running flag, the start time, the target
skeleton and the level list unchanged. For every `r` other than `NaN` the
displayed percent is an integer between `0` and `100`, within one half of the
clamped score, `0` for `r ≤ 0` and `100` for `r ≥ 100`; for `r = NaN` the
displayed percent and the fill are `NaN`. -/
theorem updateProgress_spec (r : JSNum) (s : GameState) :
    (updateProgress r s).progressText =
        mathRound (mathMin (num 100) (mathMax (num 0) r)) ∧
      (updateProgress r s).progressFillWidth = mathMin (num 100) (mathMax (num 0) r) ∧
      (updateProgress r s).currentLevelIndex = s.currentLevelIndex ∧
      (updateProgress r s).isGameRunning = s.isGameRunning ∧
      (updateProgress r s).startTime = s.startTime ∧
      (updateProgress r s).targetPoseKeypoints = s.targetPoseKeypoints ∧
      (updateProgress r s).poses = s.poses ∧
      (r ≠ .nan →
        (updateProgress r s).progressText.integerBetween 0 100 ∧
        ∃ (c : ℚ) (n : Int), (updateProgress r s).progressFillWidth = num c ∧
          (updateProgress r s).progressText = num n ∧ |(n : ℚ) - c| ≤ 1 / 2) ∧
      ((num 0).ge r = true → (updateProgress r s).progressText = num 0) ∧
      (r.ge (num 100) = true → (updateProgress r s).progressText = num 100) ∧
      (r = .nan →
        (updateProgress r s).progressText = .nan ∧
        (updateProgress r s).progressFillWidth = .nan) := by
  have hframe : (updateProgress r s).currentLevelIndex = s.currentLevelIndex ∧
      (updateProgress r s).isGameRunning = s.isGameRunning ∧
      (updateProgress r s).startTime = s.startTime ∧
      (updateProgress r s).targetPoseKeypoints = s.targetPoseKeypoints ∧
      (updateProgress r s).poses = s.poses := by
    repeat' constructor
  refine ⟨rfl, rfl, hframe.1, hframe.2.1, hframe.2.2.1, hframe.2.2.2.1, hframe.2.2.2.2,
    ?_, ?_, ?_, ?_⟩
  · intro hr
    obtain ⟨c, hc, h0, h100⟩ := clampedSimilarity_cases r hr
    have hb := mathRound_num_bounds c h0 h100
    have htext : (updateProgress r s).progressText = num ((⌊c + 1 / 2⌋ : Int) : ℚ) := by
      show mathRound (clampedSimilarity r) = _
      rw [hc]; rfl
    have hfill : (updateProgress r s).progressFillWidth = num c := hc
    refine ⟨?_, c, ⌊c + 1 / 2⌋, hfill, htext, hb.2.2⟩
    rw [htext]
    exact ⟨⌊c + 1 / 2⌋, rfl, hb.1, hb.2.1⟩
  · intro h
    show mathRound (clampedSimilarity r) = num 0
    cases r with
    | nan => simp [JSNum.ge] at h
    | posInf => simp [JSNum.ge] at h
    | negInf =>
      simp only [clampedSimilarity, JSNum.mathMax, JSNum.mathMin, JSNum.mathRound]
      norm_num
    | num q =>
      have hq : q ≤ 0 := by simpa [JSNum.ge] using h
      rw [clampedSimilarity_num, max_eq_left hq]
      norm_num [JSNum.mathRound]
  · intro h
    show mathRound (clampedSimilarity r) = num 100
    cases r with
    | nan => simp [JSNum.ge] at h
    | negInf => simp [JSNum.ge] at h
    | posInf =>
      simp only [clampedSimilarity, JSNum.mathMax, JSNum.mathMin, JSNum.mathRound]
      norm_num
    | num q =>
      have hq : 100 ≤ q := by simpa [JSNum.ge] using h
      rw [clampedSimilarity_num, max_eq_right (by linarith), min_eq_left hq]
      simp only [JSNum.mathRound]
      norm_num
  · rintro rfl
    exact ⟨rfl, rfl⟩

/-- Witness of the amended C10: `37.5` is displayed as `38`, `-5` as `0`, `250`
and `+Infinity` as `100`. -/
theorem updateProgress_spec_witness :
    (updateProgress (num (75 / 2)) newGame).progressText = num 38 ∧
      (updateProgress (num (75 / 2)) newGame).progressFillWidth = num (75 / 2) ∧
      (updateProgress (num (75 / 2)) newGame).progressText.integerBetween 0 100 ∧
      (updateProgress (num (-5)) newGame).progressText = num 0 ∧
      (updateProgress (num 250) newGame).progressText = num 100 ∧
      (updateProgress .posInf newGame).progressText = num 100 := by
  have h := updateProgress_spec (num (75 / 2)) newGame
  refine ⟨?_, ?_, (h.2.2.2.2.2.2.2.1 (by simp)).1,
    (updateProgress_spec (num (-5)) newGame).2.2.2.2.2.2.2.2.1 (by norm_num [JSNum.ge]),
    (updateProgress_spec (num 250) newGame).2.2.2.2.2.2.2.2.2.1 (by norm_num [JSNum.ge]),
    (updateProgress_spec .posInf newGame).2.2.2.2.2.2.2.2.2.1 rfl⟩
  · rw [h.1]
    simp only [JSNum.mathMax_num, JSNum.mathMin_num, JSNum.mathRound]
    norm_num
  · rw [h.2.1]
    simp only [JSNum.mathMax_num, JSNum.mathMin_num]
    norm_num

/-- C10, counterexample: for the raw score `NaN` the displayed percent is `NaN`,
which is not an integer between `0` and `100`. -/
theorem updateProgress_nan_not_percent :
    (updateProgress .nan newGame).progressText = .nan ∧
      ¬ (updateProgress .nan newGame).progressText.integerBetween 0 100 := by
  have e : (updateProgress .nan newGame).progressText = .nan := rfl
  refine ⟨e, ?_⟩
  rw [e]
  simp [JSNum.integerBetween]

/-- C6, the code at the failing input: `loadTargetPoseLoaded` with no detected
pose changes nothing, so after level 0 was matched and the image of level 1
gave no pose, the target is still the skeleton of level 0; a following tick is
scored against it (the progress display shows 50) and a tick with the level-0
pose advances to level index 2. -/
theorem loadTargetPoseLoaded_keeps_previous_target :
    (∀ s : GameState, loadTargetPoseLoaded [] s = s) ∧
      staleTargetState.currentLevelIndex = 1 ∧
      staleTargetState.loadRequests =
        [{ levelIndex := 0, src := some "image/1.jpg" },
         { levelIndex := 1, src := some "image/2.jpg" }] ∧
      staleTargetState.targetPoseKeypoints = some (nosePose 0 0) ∧
      (detectPose Rat.sqrt 6000 (.ok [nosePose 400 0]) staleTargetState).progressText =
        num 50 ∧
      (detectPose Rat.sqrt 6000 (.ok [nosePose 0 0]) staleTargetState).currentLevelIndex
        = 2 := by
  have h50 : calculatePoseSimilarity Rat.sqrt (some (nosePose 400 0))
      (some (nosePose 0 0)) = num 50 := by
    rw [similarity_nosePose_horizontal 400 0 (by norm_num) (by norm_num)]; norm_num
  have h100 : calculatePoseSimilarity Rat.sqrt (some (nosePose 0 0))
      (some (nosePose 0 0)) = num 100 := by
    rw [similarity_nosePose_horizontal 0 0 (by norm_num) (by norm_num)]; norm_num
  have ht : staleTargetState.targetPoseKeypoints = some (nosePose 0 0) := rfl
  refine ⟨fun s => rfl, rfl, rfl, ht, ?_, ?_⟩
  · rw [detectPose_scored Rat.sqrt 6000 _ _ _ _ ht, h50, if_neg (by norm_num [JSNum.ge])]
    show mathRound (clampedSimilarity (num 50)) = num 50
    rw [clampedSimilarity_num]
    simp only [JSNum.mathRound]
    norm_num
  · rw [detectPose_scored Rat.sqrt 6000 _ _ _ _ ht, h100, if_pos (by norm_num [JSNum.ge]),
      nextLevel_currentLevelIndex]
    rfl

end PoseMatchingGame
